import Mathlib

/-!
Shallow embedding of the credential-checkout core of the
`bt-passwordsafe-api-python` client library
(`bt_passwordsafe_api/client.py` and the model classes it uses),
together with theorems settling the frozen claims about its
natural-language specification.

Modelling conventions:
* Python/JSON dynamic values are embedded as `PyJson` (JSON numbers are
  modelled as integers; the verified operations never receive fractional
  numbers).  Python `None` and JSON `null` are both `PyJson.null`, exactly
  as in CPython where `json.loads` maps `null` to `None`.
* `json.loads` is embedded as the executable parser `json_loads`
  (objects, arrays, strings with the common escapes, integer numbers,
  `true`/`false`/`null`; a parse error returns `none`, standing for
  `json.JSONDecodeError`).
* HTTP calls are embedded as an environment (`Env`) mapping each request
  the client can issue to its observable outcome: `.error m` stands for a
  `requests.RequestException` whose `str` is `m` (this includes the
  non-2xx statuses surfaced by `raise_for_status`), `.ok body` stands for
  a 2xx response with the given body text.
* Raised exceptions are the `PyExc` inductive; `Except PyExc` is the
  result of an operation.  `BeyondTrustAuthenticationException` is a
  subclass of `BeyondTrustApiException` in the source, which the
  `isBtApi` catch-predicate reflects.
-/

/-- A Python value as produced by `json.loads` (and used for the
dynamically-typed model fields).  Numbers are modelled as integers. -/
inductive PyJson where
  | null
  | bool (b : Bool)
  | num (n : Int)
  | str (s : String)
  | arr (xs : List PyJson)
  | obj (fields : List (String × PyJson))

/-- `x is None` on a Python value. -/
def PyJson.isNull : PyJson → Bool
  | .null => true
  | _ => false

/-- Python truthiness (`bool(x)`) of a parsed JSON value. -/
def pyTruthy : PyJson → Bool
  | .null => false
  | .bool b => b
  | .num n => n != 0
  | .str s => s ≠ ""
  | .arr xs => !xs.isEmpty
  | .obj fs => !fs.isEmpty

/-- Python `str()` of a parsed JSON value, as used by f-string
interpolation in the client's URLs and log/error messages.  Container
values are not interpolated by any verified operation, so their
rendering is a placeholder. -/
def pyStr : PyJson → String
  | .null => "None"
  | .bool true => "True"
  | .bool false => "False"
  | .num n => toString n
  | .str s => s
  | .arr _ => "[...]"
  | .obj _ => "{...}"

/-- Last-occurrence lookup in an association list: this is the value a
Python `dict` built by successive `d[k] = v` assignments would hold. -/
def dictGet (d : List (String × PyJson)) (k : String) : Option PyJson :=
  d.foldl (fun acc p => if p.1 = k then some p.2 else acc) none

/-- `s.strip('"')` — Python strips every leading and trailing `"`. -/
def pyStripQuotes (s : String) : String :=
  String.mk (((s.toList.dropWhile (· = '"')).reverse.dropWhile (· = '"')).reverse)

/-- `needle in hay`: substring test on strings. -/
def strContainsSub (hay needle : String) : Bool :=
  (List.range (hay.toList.length + 1)).any
    (fun i => needle.toList.isPrefixOf (hay.toList.drop i))

/-- The message of the `AttributeError` raised by `x.get(...)` on a
non-`dict` value. -/
def pyNoAttrGet : PyJson → String
  | .str _ => "'str' object has no attribute 'get'"
  | .num _ => "'int' object has no attribute 'get'"
  | .bool _ => "'bool' object has no attribute 'get'"
  | .null => "'NoneType' object has no attribute 'get'"
  | .arr _ => "'list' object has no attribute 'get'"
  | .obj _ => "'dict' object has no attribute 'get'"

/-- The message of the `AttributeError` raised by `x.items()` on a
non-`dict` value (hit by the `from_dict` parsers). -/
def pyNoAttrItems : PyJson → String
  | .str _ => "'str' object has no attribute 'items'"
  | .num _ => "'int' object has no attribute 'items'"
  | .bool _ => "'bool' object has no attribute 'items'"
  | .null => "'NoneType' object has no attribute 'items'"
  | .arr _ => "'list' object has no attribute 'items'"
  | .obj _ => "'dict' object has no attribute 'items'"

/-- Exceptions raised by the embedded code.  `btAuth` is
`BeyondTrustAuthenticationException`, a subclass of
`BeyondTrustApiException` (`btApi`); the remaining constructors are the
Python built-ins the code can raise. -/
inductive PyExc where
  | valueError (msg : String)
  | typeError (msg : String)
  | attributeError (msg : String)
  | btApi (msg : String)
  | btAuth (msg : String)

/-- `isinstance(ex, BeyondTrustApiException)` — true for the API
exception and its authentication subclass. -/
def PyExc.isBtApi : PyExc → Bool
  | .btApi _ => true
  | .btAuth _ => true
  | _ => false

/-- `str(ex)`: the message the exception was constructed with. -/
def PyExc.msg : PyExc → String
  | .valueError m => m
  | .typeError m => m
  | .attributeError m => m
  | .btApi m => m
  | .btAuth m => m

/-! ### A model of `json.loads`

An executable recursive-descent parser covering the JSON subset the
verified code exchanges: objects, arrays, strings (with the single-char
escapes), integer numbers, `true`, `false`, `null`.  Returning `none`
models `json.JSONDecodeError`, including the "Extra data" error on
trailing content. -/

/-- JSON insignificant whitespace skipping. -/
def skipWs : List Char → List Char
  | c :: cs => if c = ' ' ∨ c = '\t' ∨ c = '\n' ∨ c = '\r' then skipWs cs else c :: cs
  | [] => []

/-- Parse the remainder of a JSON string literal (the opening quote is
already consumed).  The flag records a pending backslash escape. -/
def parseJsonStringAux : List Char → Bool → List Char → Option (List Char × List Char)
  | [], _, _ => none
  | c :: rest, true, acc =>
    if c = '"' then parseJsonStringAux rest false ('"' :: acc)
    else if c = '\\' then parseJsonStringAux rest false ('\\' :: acc)
    else if c = '/' then parseJsonStringAux rest false ('/' :: acc)
    else if c = 'n' then parseJsonStringAux rest false ('\n' :: acc)
    else if c = 't' then parseJsonStringAux rest false ('\t' :: acc)
    else if c = 'r' then parseJsonStringAux rest false ('\r' :: acc)
    else if c = 'b' then parseJsonStringAux rest false (Char.ofNat 8 :: acc)
    else if c = 'f' then parseJsonStringAux rest false (Char.ofNat 12 :: acc)
    else none
  | c :: rest, false, acc =>
    if c = '"' then some (acc.reverse, rest)
    else if c = '\\' then parseJsonStringAux rest true acc
    else parseJsonStringAux rest false (c :: acc)

/-- Parse a maximal run of decimal digits. -/
def parseDigits : List Char → List Char → Option (List Char × List Char)
  | c :: rest, acc =>
    if c.isDigit then parseDigits rest (c :: acc)
    else if acc.isEmpty then none else some (acc.reverse, c :: rest)
  | [], acc => if acc.isEmpty then none else some (acc.reverse, [])

/-- Digit characters to a natural number. -/
def digitsToNat (ds : List Char) : Nat :=
  ds.foldl (fun acc c => acc * 10 + (c.toNat - 48)) 0

/-- Parse a JSON integer (optional leading minus). -/
def parseJsonNumber (cs : List Char) : Option (Int × List Char) :=
  match cs with
  | '-' :: rest =>
    match parseDigits rest [] with
    | some (ds, rest2) => some (-(Int.ofNat (digitsToNat ds)), rest2)
    | none => none
  | _ =>
    match parseDigits cs [] with
    | some (ds, rest2) => some (Int.ofNat (digitsToNat ds), rest2)
    | none => none

mutual

/-- Parse one JSON value (fuel-indexed; the fuel strictly exceeds twice
the input length at the top-level call, which no derivation exhausts). -/
def parseJsonValue : Nat → List Char → Option (PyJson × List Char)
  | 0, _ => none
  | Nat.succ fuel, cs0 =>
    match skipWs cs0 with
    | [] => none
    | c :: rest =>
      if c = '"' then
        match parseJsonStringAux rest false [] with
        | some (chars, rest2) => some (.str (String.mk chars), rest2)
        | none => none
      else if c = Char.ofNat 123 then -- left brace: object
        match skipWs rest with
        | c2 :: rest2 =>
          if c2 = Char.ofNat 125 then some (.obj [], rest2)
          else
            match parseJsonMembers fuel (c2 :: rest2) [] with
            | some (fs, rest3) => some (.obj fs, rest3)
            | none => none
        | [] => none
      else if c = '[' then
        match skipWs rest with
        | c2 :: rest2 =>
          if c2 = ']' then some (.arr [], rest2)
          else
            match parseJsonElems fuel (c2 :: rest2) [] with
            | some (xs, rest3) => some (.arr xs, rest3)
            | none => none
        | [] => none
      else if ['n', 'u', 'l', 'l'].isPrefixOf (c :: rest) then
        some (.null, (c :: rest).drop 4)
      else if ['t', 'r', 'u', 'e'].isPrefixOf (c :: rest) then
        some (.bool true, (c :: rest).drop 4)
      else if ['f', 'a', 'l', 's', 'e'].isPrefixOf (c :: rest) then
        some (.bool false, (c :: rest).drop 5)
      else
        match parseJsonNumber (c :: rest) with
        | some (n, rest2) => some (.num n, rest2)
        | none => none

/-- Parse the members of a JSON object, positioned at the first key. -/
def parseJsonMembers : Nat → List Char → List (String × PyJson) →
    Option (List (String × PyJson) × List Char)
  | 0, _, _ => none
  | Nat.succ fuel, cs, acc =>
    match skipWs cs with
    | c :: rest =>
      if c = '"' then
        match parseJsonStringAux rest false [] with
        | some (kchars, rest2) =>
          match skipWs rest2 with
          | ':' :: rest3 =>
            match parseJsonValue fuel rest3 with
            | some (v, rest4) =>
              match skipWs rest4 with
              | ',' :: rest5 =>
                parseJsonMembers fuel rest5 (acc ++ [(String.mk kchars, v)])
              | c5 :: rest5 =>
                if c5 = Char.ofNat 125 then
                  some (acc ++ [(String.mk kchars, v)], rest5)
                else none
              | [] => none
            | none => none
          | _ => none
        | none => none
      else none
    | [] => none

/-- Parse the elements of a JSON array, positioned at the first element. -/
def parseJsonElems : Nat → List Char → List PyJson →
    Option (List PyJson × List Char)
  | 0, _, _ => none
  | Nat.succ fuel, cs, acc =>
    match parseJsonValue fuel cs with
    | some (v, rest) =>
      match skipWs rest with
      | ',' :: rest2 => parseJsonElems fuel rest2 (acc ++ [v])
      | ']' :: rest2 => some (acc ++ [v], rest2)
      | _ => none
    | none => none

end

/-- Model of `json.loads`: parse one value and require only whitespace
after it (otherwise Python raises the "Extra data" decode error). -/
def json_loads (s : String) : Option PyJson :=
  match parseJsonValue (2 * s.length + 2) s.toList with
  | some (v, rest) => if skipWs rest = [] then some v else none
  | none => none

/-! ### Key-convention transcoding helpers -/

/-- `''.join(['_' + c.lower() if c.isupper() else c for c in key]).lstrip('_')`
— the camelCase/PascalCase → snake_case conversion the `from_dict`
parsers apply to every inbound key. -/
def camelToSnake (s : String) : String :=
  String.mk ((s.toList.foldl
    (fun acc c => if c.isUpper then acc ++ ['_', c.toLower] else acc ++ [c])
    []).dropWhile (· = '_'))

/-- Python `str.capitalize()`: first character upper-cased, the rest
lower-cased. -/
def pyCapitalize (w : String) : String :=
  match w.toList with
  | [] => ""
  | c :: cs => String.mk (c.toUpper :: cs.map Char.toLower)

/-- `''.join(word.capitalize() for word in key.split('_'))` — the
snake_case → PascalCase conversion used by `PasswordRequest.to_dict`. -/
def snakeToPascal (s : String) : String :=
  String.join ((s.splitOn "_").map pyCapitalize)

/-! ### `models/password_request.py` -/

/-- The keyword arguments accepted by `PasswordRequest.__init__`: `none`
models an absent key, `some v` a key bound to the Python value `v`
(`some .null` is a key explicitly bound to `None`). -/
structure PRKwargs where
  system_id : Option PyJson := none
  account_id : Option PyJson := none
  duration_minutes : Option PyJson := none
  reason : Option PyJson := none
  conflict_option : Option PyJson := none
  ticket_system_id : Option PyJson := none
  ticket_number : Option PyJson := none
  access_type : Option PyJson := none

/-- `PasswordRequest`: the attributes set by `__init__`, in assignment
order (the order matters for `to_dict`). -/
structure PasswordRequest where
  system_id : PyJson
  account_id : PyJson
  duration_minutes : PyJson
  reason : PyJson
  conflict_option : PyJson
  ticket_system_id : PyJson
  ticket_number : PyJson
  access_type : PyJson

/-- `PasswordRequest.__init__`: raises `ValueError` when the `system_id`
key is absent or bound to `None`; every other field falls back to its
`kwargs.get` default (the default applies only when the key is absent,
exactly as `dict.get`). -/
def PasswordRequest.init (k : PRKwargs) : Except PyExc PasswordRequest :=
  match k.system_id with
  | none => .error (.valueError "system_id is required for password requests")
  | some v =>
    if v.isNull then .error (.valueError "system_id is required for password requests")
    else .ok {
      system_id := v
      account_id := k.account_id.getD (.num 0)
      duration_minutes := k.duration_minutes.getD (.num 60)
      reason := k.reason.getD (.str "API Password Request")
      conflict_option := k.conflict_option.getD (.str "reuse")
      ticket_system_id := k.ticket_system_id.getD .null
      ticket_number := k.ticket_number.getD .null
      access_type := k.access_type.getD (.str "view") }

/-- `PasswordRequest.to_dict`: iterate `self.__dict__` in assignment
order, skip `None` values, PascalCase every key. -/
def PasswordRequest.to_dict (r : PasswordRequest) : List (String × PyJson) :=
  (([("system_id", r.system_id), ("account_id", r.account_id),
     ("duration_minutes", r.duration_minutes), ("reason", r.reason),
     ("conflict_option", r.conflict_option),
     ("ticket_system_id", r.ticket_system_id),
     ("ticket_number", r.ticket_number),
     ("access_type", r.access_type)].filter
    (fun p => !p.2.isNull)).map (fun p => (snakeToPascal p.1, p.2)))

/-! ### `models/password_request_result.py` -/

/-- `PasswordRequestResult`: all attributes set by `__init__`. -/
structure PasswordRequestResult where
  request_id : PyJson
  system_id : PyJson
  account_id : PyJson
  duration_minutes : PyJson
  creation_date : PyJson
  expiration_date : PyJson
  status : PyJson
  reason : PyJson
  requester_name : PyJson
  requester_id : PyJson
  ticket_system_id : PyJson
  ticket_number : PyJson
  access_type : PyJson

/-- `PasswordRequestResult.from_dict`: snake_case every key of the parsed
response object, then construct with the `kwargs.get` defaults of
`__init__`.  On a non-`dict` argument `data.items()` raises
`AttributeError`. -/
def PasswordRequestResult.from_dict (data : PyJson) : Except PyExc PasswordRequestResult :=
  match data with
  | .obj fields =>
    let c := fields.map (fun p => (camelToSnake p.1, p.2))
    .ok {
      request_id := (dictGet c "request_id").getD (.str "")
      system_id := (dictGet c "system_id").getD (.num 0)
      account_id := (dictGet c "account_id").getD (.num 0)
      duration_minutes := (dictGet c "duration_minutes").getD (.num 60)
      creation_date := (dictGet c "creation_date").getD .null
      expiration_date := (dictGet c "expiration_date").getD .null
      status := (dictGet c "status").getD (.str "")
      reason := (dictGet c "reason").getD (.str "")
      requester_name := (dictGet c "requester_name").getD (.str "")
      requester_id := (dictGet c "requester_id").getD (.num 0)
      ticket_system_id := (dictGet c "ticket_system_id").getD .null
      ticket_number := (dictGet c "ticket_number").getD .null
      access_type := (dictGet c "access_type").getD (.str "view") }
  | other => .error (.attributeError (pyNoAttrItems other))

/-! ### `models/managed_account.py`

Only the four identifier attributes take part in any verified operation
or claim; the remaining descriptive attributes of `ManagedAccount`
(names, platform, status flags, managers, description, properties) are
set by the same `kwargs.get` pattern and are omitted from the record. -/

/-- The identifier attributes of `ManagedAccount`. -/
structure ManagedAccount where
  managed_account_id : PyJson
  account_id : PyJson
  managed_system_id : PyJson
  system_id : PyJson

/-- `ManagedAccount.from_dict`: snake_case every key (later duplicates
overwrite earlier ones, as in the Python `dict`), copy `account_id` into
`managed_account_id` (and `system_id` into `managed_system_id`) only
when the canonical key is **absent**, then construct with the
`kwargs.get` defaults.  On a non-`dict` argument `data.items()` raises
`AttributeError`. -/
def ManagedAccount.from_dict (data : PyJson) : Except PyExc ManagedAccount :=
  match data with
  | .obj fields =>
    let c0 := fields.map (fun p => (camelToSnake p.1, p.2))
    let c1 :=
      match dictGet c0 "managed_account_id", dictGet c0 "account_id" with
      | none, some v => c0 ++ [("managed_account_id", v)]
      | _, _ => c0
    let c2 :=
      match dictGet c1 "managed_system_id", dictGet c1 "system_id" with
      | none, some v => c1 ++ [("managed_system_id", v)]
      | _, _ => c1
    .ok {
      managed_account_id := (dictGet c2 "managed_account_id").getD (.num 0)
      account_id := (dictGet c2 "account_id").getD (.num 0)
      managed_system_id := (dictGet c2 "managed_system_id").getD (.num 0)
      system_id := (dictGet c2 "system_id").getD (.num 0) }
  | other => .error (.attributeError (pyNoAttrItems other))

/-! ### `models/managed_password.py` -/

/-- `ManagedPassword`: the attributes set by `__init__`.  Every verified
construction site passes all five keywords explicitly, so the record
holds exactly those values (`.null` where the caller passed `None`). -/
structure ManagedPassword where
  password : PyJson
  request_id : PyJson
  account_id : PyJson
  system_id : PyJson
  expiration_date : PyJson

/-- `ManagedPassword.__str__`: deliberately renders only the account id
and the request id, never the password. -/
def ManagedPassword.render (p : ManagedPassword) : String :=
  "Password for account ID: " ++ pyStr p.account_id ++
    " (Request ID: " ++ pyStr p.request_id ++ ")"

/-! ### `models/authentication_result.py`

Timestamps are modelled as integer seconds; `datetime.utcnow()` at
construction time becomes the explicit `issued_at` field and the
current time becomes an explicit argument of `is_expired`.  The
5-minute safety margin is 300 seconds. -/

/-- `AuthenticationResult`: token data plus the issuance instant. -/
structure AuthenticationResult where
  access_token : PyJson
  token_type : PyJson
  expires_in : Int
  refresh_token : PyJson
  issued_at : Int

/-- `expires_at = issued_at + timedelta(seconds=expires_in)`. -/
def AuthenticationResult.expires_at (r : AuthenticationResult) : Int :=
  r.issued_at + r.expires_in

/-- `is_expired`: `datetime.utcnow() + timedelta(minutes=5) >= self.expires_at`. -/
def AuthenticationResult.is_expired (r : AuthenticationResult) (now : Int) : Bool :=
  r.expires_at ≤ now + 300

/-! ### `client.py` — transport environment

Each field maps one HTTP request the client can issue to its observable
outcome.  `ensureAuth` is the outcome of `_ensure_authenticated` (`.ok`
when a usable session exists or authentication succeeds, `.error` the
exception a failed authentication raises). -/

/-- The transport/configuration environment of a `PasswordSafeClient`. -/
structure Env where
  ensureAuth : Except PyExc Unit
  default_password_duration : PyJson
  accountByIdResp : String → Except String String
  managedAccountsResp : List (String × String) → Except String String
  requestsPostResp : List (String × PyJson) → Except String String
  credentialsResp : String → Except String String
  activeRequestsResp : String → Except String String

/-- Python `not x` on an `Optional[str]`: true for `None` and `""`. -/
def optFalsy : Option String → Bool
  | none => true
  | some s => s = ""

/-- f-string rendering of an `Optional[str]`. -/
def optStr : Option String → String
  | none => "None"
  | some s => s

/-- Python `x > 0` on a dynamic value: defined for numbers and booleans
(`bool` is an `int` subtype), a `TypeError` otherwise. -/
def pyGtZero : PyJson → Except PyExc Bool
  | .num n => .ok (0 < n)
  | .bool b => .ok b
  | .str _ => .error (.typeError "'>' not supported between instances of 'str' and 'int'")
  | .null => .error (.typeError "'>' not supported between instances of 'NoneType' and 'int'")
  | .arr _ => .error (.typeError "'>' not supported between instances of 'list' and 'int'")
  | .obj _ => .error (.typeError "'>' not supported between instances of 'dict' and 'int'")

/-- Python `x == 0` on a dynamic value (never raises; `False == 0` is
true, any non-numeric value compares unequal). -/
def pyEqZero : PyJson → Bool
  | .num n => n = 0
  | .bool b => !b
  | _ => false

/-- `if account.account_id > 0 and account.managed_account_id == 0:` —
the first id-reconciliation statement that `get_managed_account_by_id`
and `get_managed_account_by_name` run inline after `from_dict`. -/
def reconcileAccountId (a : ManagedAccount) : Except PyExc ManagedAccount :=
  match pyGtZero a.account_id with
  | .error e => .error e
  | .ok gt => .ok (if gt && pyEqZero a.managed_account_id
                   then { a with managed_account_id := a.account_id } else a)

/-- `if account.system_id > 0 and account.managed_system_id == 0:` —
the second id-reconciliation statement. -/
def reconcileSystemId (a : ManagedAccount) : Except PyExc ManagedAccount :=
  match pyGtZero a.system_id with
  | .error e => .error e
  | .ok gt => .ok (if gt && pyEqZero a.managed_system_id
                   then { a with managed_system_id := a.system_id } else a)

/-- Both reconciliation statements in source order. -/
def reconcileIds (a : ManagedAccount) : Except PyExc ManagedAccount :=
  match reconcileAccountId a with
  | .error e => .error e
  | .ok a1 => reconcileSystemId a1

/-- `PasswordSafeClient.get_managed_account_by_id`. -/
def get_managed_account_by_id (env : Env) (managed_account_id : String) :
    Except PyExc ManagedAccount :=
  if managed_account_id = "" then
    .error (.valueError "Managed account ID cannot be null or empty")
  else
    match env.ensureAuth with
    | .error e => .error e
    | .ok _ =>
      match env.accountByIdResp managed_account_id with
      | .error m => .error (.btApi ("Failed to retrieve managed account: " ++ m))
      | .ok body =>
        match json_loads body with
        | none => .error (.btApi "Failed to parse managed account response")
        | some content =>
          match ((match ManagedAccount.from_dict content with
                 | .error e => .error e
                 | .ok a => reconcileIds a) : Except PyExc ManagedAccount) with
          | .ok a => .ok a
          | .error e => .error (.btApi ("Failed to parse managed account: " ++ e.msg))

/-- `PasswordSafeClient.get_managed_account_by_name`. -/
def get_managed_account_by_name (env : Env) (account_name : String)
    (system_name domain_name : Option String) (is_domain_linked : Bool) :
    Except PyExc ManagedAccount :=
  if account_name = "" then
    .error (.valueError "Account name cannot be null or empty")
  else if is_domain_linked && optFalsy domain_name then
    .error (.valueError "Domain name is required when is_domain_linked is True")
  else if !is_domain_linked && optFalsy system_name then
    .error (.valueError "System name is required when is_domain_linked is False")
  else
    match env.ensureAuth with
    | .error e => .error e
    | .ok _ =>
      let query_params : List (String × String) :=
        if is_domain_linked then
          [("accountname", optStr domain_name ++ "\\" ++ account_name),
           ("type", "domainlinked")]
        else
          [("systemName", optStr system_name), ("accountName", account_name)]
      match env.managedAccountsResp query_params with
      | .error m => .error (.btApi ("Failed to retrieve managed account: " ++ m))
      | .ok body =>
        match json_loads body with
        | none => .error (.btApi "Failed to parse managed account response")
        | some content =>
          match ((match ManagedAccount.from_dict content with
                 | .error e => .error e
                 | .ok a => reconcileIds a) : Except PyExc ManagedAccount) with
          | .ok a => .ok a
          | .error e => .error (.btApi ("Failed to parse managed account: " ++ e.msg))

/-- `PasswordSafeClient.get_managed_accounts`.  A `dict` response is
wrapped into a one-element list; a `list` response is parsed
elementwise; any other shape fails inside the final `try` and surfaces
as an API failure (an empty string iterates to an empty list, a
non-empty string iterates over characters whose `from_dict` raises). -/
def get_managed_accounts (env : Env) (system_id account_name : Option String) :
    Except PyExc (List ManagedAccount) :=
  if !(optFalsy account_name) && optFalsy system_id then
    .error (.valueError "system_id is required when account_name is specified")
  else
    match env.ensureAuth with
    | .error e => .error e
    | .ok _ =>
      let query_params : List (String × String) :=
        (if !(optFalsy system_id) then [("systemId", optStr system_id)] else []) ++
        (if !(optFalsy account_name) then [("accountName", optStr account_name)] else [])
      match env.managedAccountsResp query_params with
      | .error m => .error (.btApi ("Failed to retrieve managed accounts: " ++ m))
      | .ok body =>
        match json_loads body with
        | none => .error (.btApi "Failed to parse managed accounts response")
        | some content =>
          match content with
          | .obj _ =>
            match ManagedAccount.from_dict content with
            | .ok a => .ok [a]
            | .error e => .error (.btApi ("Failed to parse managed accounts: " ++ e.msg))
          | .arr xs =>
            match xs.mapM ManagedAccount.from_dict with
            | .ok accounts => .ok accounts
            | .error e => .error (.btApi ("Failed to parse managed accounts: " ++ e.msg))
          | .str s =>
            if s = "" then .ok []
            else .error (.btApi ("Failed to parse managed accounts: " ++ pyNoAttrItems (.str s)))
          | .null => .error (.btApi "Failed to parse managed accounts: 'NoneType' object is not iterable")
          | .bool _ => .error (.btApi "Failed to parse managed accounts: 'bool' object is not iterable")
          | .num _ => .error (.btApi "Failed to parse managed accounts: 'int' object is not iterable")

/-- `PasswordSafeClient.create_password_request`.  The `if not request:`
guard never fires: a `PasswordRequest` instance is always truthy. -/
def create_password_request (env : Env) (request : PasswordRequest) :
    Except PyExc PasswordRequestResult :=
  match env.ensureAuth with
  | .error e => .error e
  | .ok _ =>
    match env.requestsPostResp request.to_dict with
    | .error m => .error (.btApi ("Failed to create password request: " ++ m))
    | .ok body =>
      match json_loads body with
      | none => .error (.btApi "Failed to parse password request response")
      | some content =>
        match PasswordRequestResult.from_dict content with
        | .ok r => .ok r
        | .error e => .error (.btApi ("Failed to parse password request result: " ++ e.msg))

/-- `PasswordSafeClient._get_existing_request`: query
`GET /Requests?accountId=...&state=active`; return the first entry of a
truthy list response, `None` otherwise. -/
def _get_existing_request (env : Env) (account_id : String) :
    Except PyExc (Option PasswordRequestResult) :=
  if account_id = "" then .ok none
  else
    match env.ensureAuth with
    | .error e => .error e
    | .ok _ =>
      match env.activeRequestsResp account_id with
      | .error m => .error (.btApi ("Failed to check for existing requests: " ++ m))
      | .ok body =>
        match json_loads body with
        | none => .error (.btApi "Failed to parse existing requests response")
        | some content =>
          match content with
          | .arr (x :: _) =>
            match PasswordRequestResult.from_dict x with
            | .ok r => .ok (some r)
            | .error e => .error (.btApi ("Failed to parse existing requests: " ++ e.msg))
          | _ => .ok none

/-- `PasswordSafeClient.get_managed_account_password_by_request_id`:
only the credential fetch, no account or system resolution.  A response
body that parses as a JSON object yields its `Password` member (empty
string when absent); a body that fails JSON parsing is used literally
with surrounding quotes stripped (the parse-failure `except` below that
fallback is unreachable because `ManagedPassword` construction cannot
raise); a body parsing to any other JSON value hits `.get` on a
non-`dict` and raises an uncaught `AttributeError`. -/
def get_managed_account_password_by_request_id (env : Env) (request_id : String) :
    Except PyExc ManagedPassword :=
  if request_id = "" then .error (.valueError "Request ID cannot be null or empty")
  else
    match env.ensureAuth with
    | .error e => .error e
    | .ok _ =>
      match env.credentialsResp request_id with
      | .error m =>
        .error (.btApi ("Failed to get password with request ID " ++ request_id ++ ": " ++ m))
      | .ok content =>
        match json_loads content with
        | some (.obj fields) =>
          .ok { password := (dictGet fields "Password").getD (.str "")
                request_id := .str request_id
                account_id := .null
                system_id := .null
                expiration_date := .null }
        | some other => .error (.attributeError (pyNoAttrGet other))
        | none =>
          .ok { password := .str (pyStripQuotes content)
                request_id := .str request_id
                account_id := .null
                system_id := .null
                expiration_date := .null }

/-- The body of the `try:` block of
`get_managed_account_password_by_id`: build the `PasswordRequest`
(whose `ValueError` propagates uncaught), create the request, fetch the
credential under the new request id, parse the body (same three-way
parse as the by-request-id operation). -/
def checkoutTryBlock (env : Env) (account : ManagedAccount) :
    Except PyExc ManagedPassword :=
  match PasswordRequest.init
      { system_id := some account.managed_system_id
        account_id := some account.managed_account_id
        duration_minutes := some env.default_password_duration
        reason := some (.str "API Password Request") } with
  | .error e => .error e
  | .ok request =>
    match create_password_request env request with
    | .error e => .error e
    | .ok request_result =>
      match env.credentialsResp (pyStr request_result.request_id) with
      | .error m => .error (.btApi ("Failed to get password: " ++ m))
      | .ok content =>
        match json_loads content with
        | some (.obj fields) =>
          .ok { password := (dictGet fields "Password").getD (.str "")
                request_id := request_result.request_id
                account_id := account.managed_account_id
                system_id := account.managed_system_id
                expiration_date := request_result.expiration_date }
        | some other => .error (.attributeError (pyNoAttrGet other))
        | none =>
          .ok { password := .str (pyStripQuotes content)
                request_id := request_result.request_id
                account_id := account.managed_account_id
                system_id := account.managed_system_id
                expiration_date := request_result.expiration_date }

/-- The `except BeyondTrustApiException` handler of
`get_managed_account_password_by_id`: on a caught API failure whose
message contains `"409"`, look for an existing active request; reuse its
request id and expiry for a fresh fetch when found, re-raise the
original failure when not.  In this handler's fetch-parse, the
`AttributeError` of `.get` on a non-`dict` **is** caught (by the final
`except Exception`) and re-raised as an API failure echoing the raw
body.  A non-`BeyondTrustApiException` failure is not caught at all. -/
def conflictRecovery (env : Env) (account : ManagedAccount) (ex : PyExc) :
    Except PyExc ManagedPassword :=
  if ex.isBtApi && strContainsSub ex.msg "409" then
    match _get_existing_request env (pyStr account.managed_account_id) with
    | .error e2 => .error e2
    | .ok none => .error ex
    | .ok (some existing) =>
      match env.credentialsResp (pyStr existing.request_id) with
      | .error m =>
        .error (.btApi ("Failed to get password with existing request ID " ++
          pyStr existing.request_id ++ ": " ++ m))
      | .ok content =>
        match json_loads content with
        | some (.obj fields) =>
          .ok { password := (dictGet fields "Password").getD (.str "")
                request_id := existing.request_id
                account_id := account.managed_account_id
                system_id := account.managed_system_id
                expiration_date := existing.expiration_date }
        | none =>
          .ok { password := .str (pyStripQuotes content)
                request_id := existing.request_id
                account_id := account.managed_account_id
                system_id := account.managed_system_id
                expiration_date := existing.expiration_date }
        | some _other =>
          .error (.btApi ("Failed to parse password response from existing request: " ++ content))
  else .error ex

/-- `PasswordSafeClient.get_managed_account_password_by_id`: validation,
session check, account resolution, then the `try:` body with the
conflict-recovery `except` handler around it. -/
def get_managed_account_password_by_id (env : Env) (managed_account_id : String) :
    Except PyExc ManagedPassword :=
  if managed_account_id = "" then
    .error (.valueError "Managed account ID cannot be null or empty")
  else
    match env.ensureAuth with
    | .error e => .error e
    | .ok _ =>
      match get_managed_account_by_id env managed_account_id with
      | .error e => .error e
      | .ok account =>
        match checkoutTryBlock env account with
        | .ok pw => .ok pw
        | .error ex => conflictRecovery env account ex

/-! ### `client.py` — the delegated (OAuth) authentication strategy -/

/-- Outcome of the `POST /Auth/Connect/Token` exchange: transport
failure, undecodable body, or the parsed JSON body. -/
inductive TokenCallOutcome where
  | reqErr (msg : String)
  | decodeErr
  | ok (auth_data : PyJson)

/-- Environment of `_authenticate_with_oauth`: token-call outcome,
`POST /Auth/SignAppIn` outcome, and the construction instant. -/
structure OAuthEnv where
  tokenCall : TokenCallOutcome
  signIn : Except String Unit
  now : Int

/-- `dict.get(k, d)` on a dynamic value (an `AttributeError` on a
non-`dict`). -/
def pyDictGetD (j : PyJson) (k : String) (d : PyJson) : Except PyExc PyJson :=
  match j with
  | .obj fields => .ok ((dictGet fields k).getD d)
  | other => .error (.attributeError (pyNoAttrGet other))

/-- Python `int(x)` on a dynamic value (numbers pass through, booleans
coerce, integer-shaped strings parse, anything else raises). -/
def pyInt : PyJson → Except PyExc Int
  | .num n => .ok n
  | .bool b => .ok (if b then 1 else 0)
  | .str s =>
    match json_loads s with
    | some (.num n) => .ok n
    | _ => .error (.valueError ("invalid literal for int() with base 10: " ++ s))
  | .null => .error (.typeError "int() argument cannot be 'NoneType'")
  | .arr _ => .error (.typeError "int() argument cannot be 'list'")
  | .obj _ => .error (.typeError "int() argument cannot be 'dict'")

/-- Construction of the `AuthenticationResult` from the parsed token
response: the four `auth_data.get(...)` reads in keyword order with
`int()` applied to `expires_in` (default `0`). -/
def oauthBuildResult (now : Int) (auth_data : PyJson) :
    Except PyExc AuthenticationResult :=
  match pyDictGetD auth_data "access_token" .null with
  | .error e => .error e
  | .ok tok =>
    match pyDictGetD auth_data "token_type" .null with
    | .error e => .error e
    | .ok tt =>
      match pyDictGetD auth_data "expires_in" (.num 0) with
      | .error e => .error e
      | .ok ei =>
        match pyInt ei with
        | .error e => .error e
        | .ok eiInt =>
          match pyDictGetD auth_data "refresh_token" .null with
          | .error e => .error e
          | .ok rt => .ok ⟨tok, tt, eiInt, rt, now⟩

/-- `PasswordSafeClient._authenticate_with_oauth` as a state transition
on `self._auth_result` (`st` before the call, first component after):
token exchange, **assignment of the new result to `self._auth_result`**,
then the `SignAppIn` call whose failure raises
`BeyondTrustAuthenticationException` — after the assignment. -/
def _authenticate_with_oauth (env : OAuthEnv) (st : Option AuthenticationResult) :
    Option AuthenticationResult × Except PyExc AuthenticationResult :=
  match env.tokenCall with
  | .reqErr m => (st, .error (.btAuth ("OAuth authentication failed: " ++ m)))
  | .decodeErr => (st, .error (.btAuth "Failed to parse authentication response"))
  | .ok auth_data =>
    match oauthBuildResult env.now auth_data with
    | .error e => (st, .error e)
    | .ok r =>
      match env.signIn with
      | .error m => (some r, .error (.btAuth ("SignAppIn failed: " ++ m)))
      | .ok _ => (some r, .ok r)

/-! ### Helper lemmas -/

/-- A successful account resolution implies the session check succeeded
(the operation consults `_ensure_authenticated` first). -/
theorem ensureAuth_ok_of_account_ok (env : Env) (mid : String) (a : ManagedAccount)
    (h : get_managed_account_by_id env mid = .ok a) : env.ensureAuth = .ok () := by
  unfold get_managed_account_by_id at h
  by_cases hm : mid = ""
  · simp [hm] at h
  · rcases hh : env.ensureAuth with e | u
    · simp [hm, hh] at h
    · cases u; rfl

/-- A value that compares `> 0` does not compare `== 0`. -/
theorem pyEqZero_false_of_gtZero (v : PyJson) (h : pyGtZero v = .ok true) :
    pyEqZero v = false := by
  cases v with
  | null => exact absurd h (by simp [pyGtZero])
  | bool b => simp [pyGtZero] at h; simp [pyEqZero, h]
  | num n => simp [pyGtZero] at h; simp [pyEqZero]; omega
  | str s => exact absurd h (by simp [pyGtZero])
  | arr xs => exact absurd h (by simp [pyGtZero])
  | obj fs => exact absurd h (by simp [pyGtZero])

/-- The first reconciliation statement: effect on the account-id pair
and non-interference with the other fields. -/
theorem reconcileAccountId_spec (a b : ManagedAccount)
    (h : reconcileAccountId a = .ok b) :
    (pyGtZero b.account_id = .ok true → pyEqZero b.managed_account_id = false) ∧
    b.account_id = a.account_id ∧ b.system_id = a.system_id ∧
    b.managed_system_id = a.managed_system_id := by
  unfold reconcileAccountId at h
  rcases hA : pyGtZero a.account_id with e | gt <;> rw [hA] at h
  · exact Except.noConfusion h
  · cases h
    by_cases hz : (gt && pyEqZero a.managed_account_id) = true
    · rw [if_pos hz]
      refine ⟨fun hgt => ?_, rfl, rfl, rfl⟩
      rw [hA] at hgt
      cases hgt
      exact pyEqZero_false_of_gtZero _ hA
    · rw [if_neg hz]
      refine ⟨fun hgt => ?_, rfl, rfl, rfl⟩
      rw [hA] at hgt
      cases hgt
      simp at hz
      exact hz
  
/-- The second reconciliation statement: effect on the system-id pair
and non-interference with the other fields. -/
theorem reconcileSystemId_spec (a b : ManagedAccount)
    (h : reconcileSystemId a = .ok b) :
    (pyGtZero b.system_id = .ok true → pyEqZero b.managed_system_id = false) ∧
    b.system_id = a.system_id ∧ b.account_id = a.account_id ∧
    b.managed_account_id = a.managed_account_id := by
  unfold reconcileSystemId at h
  rcases hS : pyGtZero a.system_id with e | gt <;> rw [hS] at h
  · exact Except.noConfusion h
  · cases h
    by_cases hz : (gt && pyEqZero a.managed_system_id) = true
    · rw [if_pos hz]
      refine ⟨fun hgt => ?_, rfl, rfl, rfl⟩
      rw [hS] at hgt
      cases hgt
      exact pyEqZero_false_of_gtZero _ hS
    · rw [if_neg hz]
      refine ⟨fun hgt => ?_, rfl, rfl, rfl⟩
      rw [hS] at hgt
      cases hgt
      simp at hz
      exact hz

/-- After both reconciliation statements, a positive secondary id rules
out a zero canonical id, for each of the two id pairs. -/
theorem reconcileIds_invariant (a b : ManagedAccount) (h : reconcileIds a = .ok b) :
    (pyGtZero b.account_id = .ok true → pyEqZero b.managed_account_id = false) ∧
    (pyGtZero b.system_id = .ok true → pyEqZero b.managed_system_id = false) := by
  unfold reconcileIds at h
  rcases h1 : reconcileAccountId a with e | a1 <;> rw [h1] at h
  · exact Except.noConfusion h
  · obtain ⟨hinv1, hacc1, _, _⟩ := reconcileAccountId_spec a a1 h1
    obtain ⟨hinv2, _, hacc2, hmaid2⟩ := reconcileSystemId_spec a1 b h
    refine ⟨fun hgt => ?_, hinv2⟩
    rw [hmaid2]
    exact hinv1 (by rw [hacc2] at hgt; exact hgt)

/-- Every account returned by `get_managed_account_by_id` satisfies the
reconciliation invariant. -/
theorem managed_account_invariant_of_by_id (env : Env) (mid : String) (a : ManagedAccount)
    (h : get_managed_account_by_id env mid = .ok a) :
    (pyGtZero a.account_id = .ok true → pyEqZero a.managed_account_id = false) ∧
    (pyGtZero a.system_id = .ok true → pyEqZero a.managed_system_id = false) := by
  unfold get_managed_account_by_id at h
  by_cases hm : mid = ""
  · simp [hm] at h
  · rw [if_neg hm] at h
    rcases hh : env.ensureAuth with e | u <;> simp only [hh] at h
    · exact Except.noConfusion h
    · rcases hr : env.accountByIdResp mid with m | body <;> simp only [hr] at h
      · exact Except.noConfusion h
      · rcases hj : json_loads body with _ | content <;> simp only [hj] at h
        · exact Except.noConfusion h
        · rcases hf : ManagedAccount.from_dict content with e2 | a0 <;> simp only [hf] at h
          · exact Except.noConfusion h
          · rcases hrec : reconcileIds a0 with e3 | a1 <;> simp only [hrec] at h
            · exact Except.noConfusion h
            · cases h
              exact reconcileIds_invariant a0 a hrec

/-- Every account returned by `get_managed_account_by_name` satisfies
the reconciliation invariant. -/
theorem managed_account_invariant_of_by_name (env : Env) (an : String)
    (sn dn : Option String) (dl : Bool) (a : ManagedAccount)
    (h : get_managed_account_by_name env an sn dn dl = .ok a) :
    (pyGtZero a.account_id = .ok true → pyEqZero a.managed_account_id = false) ∧
    (pyGtZero a.system_id = .ok true → pyEqZero a.managed_system_id = false) := by
  unfold get_managed_account_by_name at h
  by_cases hm : an = ""
  · simp [hm] at h
  · rw [if_neg hm] at h
    rcases h1 : (dl && optFalsy dn) with _ | _ <;> simp only [h1] at h
    swap
    · simp at h
    rcases h2 : (!dl && optFalsy sn) with _ | _ <;> simp only [h2] at h
    swap
    · simp at h
    simp only [Bool.false_eq_true, if_false] at h
    rcases hh : env.ensureAuth with e | u <;> simp only [hh] at h
    · exact Except.noConfusion h
    · rcases hr : env.managedAccountsResp
          (if dl then
            [("accountname", optStr dn ++ "\\" ++ an), ("type", "domainlinked")]
          else
            [("systemName", optStr sn), ("accountName", an)]) with m | body <;>
        simp only [hr] at h
      · exact Except.noConfusion h
      · rcases hj : json_loads body with _ | content <;> simp only [hj] at h
        · exact Except.noConfusion h
        · rcases hf : ManagedAccount.from_dict content with e2 | a0 <;> simp only [hf] at h
          · exact Except.noConfusion h
          · rcases hrec : reconcileIds a0 with e3 | a1 <;> simp only [hrec] at h
            · exact Except.noConfusion h
            · cases h
              exact reconcileIds_invariant a0 a hrec

/-! ### Concrete transport environments for witnesses and counterexamples -/

/-- Environment that serves a fixed credential body and nothing else. -/
def envFetch (body : String) : Env :=
  { ensureAuth := .ok ()
    default_password_duration := .num 60
    accountByIdResp := fun _ => .error "unused"
    managedAccountsResp := fun _ => .error "unused"
    requestsPostResp := fun _ => .error "unused"
    credentialsResp := fun _ => .ok body
    activeRequestsResp := fun _ => .error "unused" }

/-- Like `envFetch` but with entirely different resolution endpoints
(same session check and credential endpoint). -/
def envFetchAlt (body : String) : Env :=
  { envFetch body with
    accountByIdResp := fun _ => .ok "\x7b\"ManagedAccountId\": 99\x7d"
    managedAccountsResp := fun _ => .ok "[]"
    requestsPostResp := fun _ => .ok "\x7b\x7d"
    activeRequestsResp := fun _ => .ok "[]" }

/-- Environment realizing the conflict-recovery scenario: the request
endpoint reports a 409 conflict, the active-requests query returns one
entry with request id `r-1`, and the credential endpoint serves a
structured body for `r-1`. -/
def envConflictJoin : Env :=
  { ensureAuth := .ok ()
    default_password_duration := .num 60
    accountByIdResp := fun _ =>
      .ok "\x7b\"ManagedAccountId\": 7, \"ManagedSystemId\": 3\x7d"
    managedAccountsResp := fun _ => .error "unused"
    requestsPostResp := fun _ => .error "409 Client Error: Conflict for url"
    credentialsResp := fun rid =>
      if rid = "r-1" then .ok "\x7b\"Password\":\"pw1\"\x7d" else .error "404"
    activeRequestsResp := fun _ =>
      .ok "[\x7b\"RequestId\": \"r-1\", \"ExpirationDate\": \"2025-01-01\"\x7d]" }

/-- The conflict scenario with no active request to join. -/
def envConflictNone : Env :=
  { envConflictJoin with activeRequestsResp := fun _ => .ok "[]" }

/-- The conflict scenario where the recovery fetch returns the secret as
a bare quoted string. -/
def envSecretEcho : Env :=
  { envConflictJoin with
    credentialsResp := fun rid =>
      if rid = "r-1" then .ok "\"secret\"" else .error "404" }

/-- Environment whose credential endpoint serves `\x7b\x7d` and whose
request endpoint acknowledges with request id `r-2`. -/
def envEmptyCred : Env :=
  { ensureAuth := .ok ()
    default_password_duration := .num 60
    accountByIdResp := fun _ =>
      .ok "\x7b\"ManagedAccountId\": 7, \"ManagedSystemId\": 3\x7d"
    managedAccountsResp := fun _ => .error "unused"
    requestsPostResp := fun _ => .ok "\x7b\"RequestId\": \"r-2\"\x7d"
    credentialsResp := fun _ => .ok "\x7b\x7d"
    activeRequestsResp := fun _ => .error "unused" }

/-- Environment whose account list serves one record with a zero
canonical account id and a non-zero secondary id. -/
def envListZero : Env :=
  { envFetch "unused" with
    managedAccountsResp := fun _ =>
      .ok "[\x7b\"ManagedAccountId\": 0, \"AccountId\": 5\x7d]" }

/-- Environment whose single-account endpoint serves a record with zero
canonical ids and non-zero secondary ids. -/
def envByIdZero : Env :=
  { envFetch "unused" with
    accountByIdResp := fun _ =>
      .ok "\x7b\"ManagedAccountId\": 0, \"AccountId\": 5, \"ManagedSystemId\": 0, \"SystemId\": 9\x7d" }

/-- Environment where every endpoint (and the session check itself)
fails, to exhibit that argument validation precedes both. -/
def envAuthFail : Env :=
  { ensureAuth := .error (.btAuth "Authentication with the BeyondTrust Password Safe API failed")
    default_password_duration := .num 60
    accountByIdResp := fun _ => .error "unreachable"
    managedAccountsResp := fun _ => .error "unreachable"
    requestsPostResp := fun _ => .error "unreachable"
    credentialsResp := fun _ => .error "unreachable"
    activeRequestsResp := fun _ => .error "unreachable" }

/-- OAuth environment where the token exchange succeeds and the
`SignAppIn` call fails. -/
def envOAuthSignInFail : OAuthEnv :=
  { tokenCall := .ok (.obj [("access_token", .str "tok"),
      ("token_type", .str "Bearer"), ("expires_in", .num 600)])
    signIn := .error "boom"
    now := 0 }

/-! ### Claims -/

/-- C5.  For every `AuthenticationResult` and every current time, the
session is reported expired exactly when current time plus the 5-minute
margin is not strictly before the expiry timestamp
(`issued_at + expires_in`); strictly-less expiry is expired, strictly
greater is usable, and equality at the boundary counts as expired. -/
theorem claim_C5_expiry_margin (r : AuthenticationResult) (now : Int) :
    (r.is_expired now = true ↔ r.expires_at ≤ now + 300) ∧
    r.expires_at = r.issued_at + r.expires_in ∧
    (r.expires_at < now + 300 → r.is_expired now = true) ∧
    (now + 300 < r.expires_at → r.is_expired now = false) ∧
    (r.expires_at = now + 300 → r.is_expired now = true) := by
  refine ⟨?_, rfl, ?_, ?_, ?_⟩ <;>
    simp [AuthenticationResult.is_expired] <;> omega

/-- Witness for C5: a session issued at 0 with a 600-second lifetime is
expired at time 301. -/
theorem claim_C5_expiry_margin_witness :
    (AuthenticationResult.mk (.str "tok") (.str "Bearer") 600 .null 0).is_expired 301 = true :=
  (claim_C5_expiry_margin (AuthenticationResult.mk (.str "tok") (.str "Bearer") 600 .null 0)
    301).2.2.1 (by decide)

/-- C3 counterexample: constructing a `PasswordRequest` with a present
but **zero** system id succeeds, so "construction with a zero system id
fails with an invalid-argument error" is false. -/
theorem claim_C3_counterexample :
    PasswordRequest.init { system_id := some (.num 0) } =
      .ok ⟨.num 0, .num 0, .num 60, .str "API Password Request",
           .str "reuse", .null, .null, .str "view"⟩ ∧
    PasswordRequest.init { system_id := some (.num 0) } ≠
      .error (.valueError "system_id is required for password requests") :=
  ⟨rfl, fun hco => Except.noConfusion hco⟩

/-- C3 (amended): construction fails with the invalid-argument error
exactly when the system-id keyword is absent or bound to `None`; any
present non-`None` value — zero included — is accepted and stored. -/
theorem claim_C3_system_id_presence (k : PRKwargs) :
    ((k.system_id = none ∨ k.system_id = some .null) →
      PasswordRequest.init k =
        .error (.valueError "system_id is required for password requests")) ∧
    (∀ v, k.system_id = some v → v.isNull = false →
      ∃ r, PasswordRequest.init k = .ok r ∧ r.system_id = v) := by
  constructor
  · rintro (h | h) <;> simp [PasswordRequest.init, h, PyJson.isNull]
  · rintro v h hv
    refine ⟨{ system_id := v
              account_id := k.account_id.getD (.num 0)
              duration_minutes := k.duration_minutes.getD (.num 60)
              reason := k.reason.getD (.str "API Password Request")
              conflict_option := k.conflict_option.getD (.str "reuse")
              ticket_system_id := k.ticket_system_id.getD .null
              ticket_number := k.ticket_number.getD .null
              access_type := k.access_type.getD (.str "view") }, ?_, rfl⟩
    simp [PasswordRequest.init, h, hv]

/-- Witness for the amended C3: an absent system id fails, a zero one
succeeds. -/
theorem claim_C3_system_id_presence_witness :
    PasswordRequest.init { } =
      .error (.valueError "system_id is required for password requests") ∧
    ∃ r, PasswordRequest.init { system_id := some (.num 0) } = .ok r ∧
      r.system_id = .num 0 :=
  ⟨(claim_C3_system_id_presence { }).1 (Or.inl rfl),
   (claim_C3_system_id_presence { system_id := some (.num 0) }).2 (.num 0) rfl rfl⟩

/-- C9 counterexample: in the conflict-recovery path, a credential body
that is a bare quoted secret is parsed as non-`dict` JSON, and the
handler's parse-failure message echoes the raw body — the secret value
appears verbatim in the raised error message. -/
theorem claim_C9_counterexample :
    get_managed_account_password_by_id envSecretEcho "7" =
      .error (.btApi "Failed to parse password response from existing request: \"secret\"") ∧
    strContainsSub
      (PyExc.btApi "Failed to parse password response from existing request: \"secret\"").msg
      "secret" = true ∧
    envSecretEcho.credentialsResp "r-1" = .ok "\"secret\"" ∧
    pyStripQuotes "\"secret\"" = "secret" :=
  ⟨rfl, rfl, rfl, rfl⟩

/-- C9 (amended): the default textual rendering of a credential never
depends on the secret — two `ManagedPassword` values differing only in
the password field render identically. -/
theorem claim_C9_rendering_password_independent (p : ManagedPassword) (pw : PyJson) :
    ManagedPassword.render { p with password := pw } = ManagedPassword.render p := rfl

/-- C2 at the failing input: the fetch body `"abc123"` (a bare quoted
string, which **is** valid JSON) makes `.get` run on a `str` and the
operation raises an uncaught `AttributeError` instead of returning the
password; the structured body `\x7b"Password":"abc123"\x7d` works, and
only a JSON-invalid body such as `abc123` reaches the quote-stripping
fallback. -/
theorem claim_C2_fetch_parse_shapes :
    get_managed_account_password_by_request_id (envFetch "\"abc123\"") "r-9" =
      .error (.attributeError "'str' object has no attribute 'get'") ∧
    get_managed_account_password_by_request_id
        (envFetch "\x7b\"Password\":\"abc123\"\x7d") "r-9" =
      .ok ⟨.str "abc123", .str "r-9", .null, .null, .null⟩ ∧
    get_managed_account_password_by_request_id (envFetch "abc123") "r-9" =
      .ok ⟨.str "abc123", .str "r-9", .null, .null, .null⟩ :=
  ⟨rfl, rfl, rfl⟩

/-- C7.  Get-by-request-id performs no account or system resolution —
its outcome is unchanged under arbitrary replacement of the resolution
endpoints (only the session check and the credential endpoint matter) —
and every credential it returns has `account_id`, `system_id` and
`expiration_date` unset (`None`). -/
theorem claim_C7_by_request_id_no_resolution (env env2 : Env) (rid : String)
    (hauth : env2.ensureAuth = env.ensureAuth)
    (hcred : env2.credentialsResp = env.credentialsResp) :
    get_managed_account_password_by_request_id env2 rid =
      get_managed_account_password_by_request_id env rid ∧
    ∀ pw, get_managed_account_password_by_request_id env rid = .ok pw →
      pw.account_id = .null ∧ pw.system_id = .null ∧ pw.expiration_date = .null := by
  constructor
  · unfold get_managed_account_password_by_request_id
    rw [hauth, hcred]
  · intro pw h
    unfold get_managed_account_password_by_request_id at h
    by_cases hr : rid = ""
    · simp [hr] at h
    · rw [if_neg hr] at h
      rcases hh : env.ensureAuth with e | u <;> simp only [hh] at h
      · exact Except.noConfusion h
      · rcases hc : env.credentialsResp rid with m | content <;> simp only [hc] at h
        · exact Except.noConfusion h
        · rcases hj : json_loads content with _ | j <;> simp only [hj] at h
          · cases h; exact ⟨rfl, rfl, rfl⟩
          · cases j <;>
              first
                | exact Except.noConfusion h
                | (cases h; exact ⟨rfl, rfl, rfl⟩)

/-- Witness for C7: the outcome is identical under two environments
whose resolution endpoints disagree everywhere, and the returned
credential's context fields are `None`. -/
theorem claim_C7_by_request_id_no_resolution_witness :
    get_managed_account_password_by_request_id (envFetchAlt "\x7b\x7d") "r-9" =
      get_managed_account_password_by_request_id (envFetch "\x7b\x7d") "r-9" ∧
    (⟨.str "", .str "r-9", .null, .null, .null⟩ : ManagedPassword).account_id = .null :=
  ⟨(claim_C7_by_request_id_no_resolution (envFetch "\x7b\x7d") (envFetchAlt "\x7b\x7d")
      "r-9" rfl rfl).1,
   ((claim_C7_by_request_id_no_resolution (envFetch "\x7b\x7d") (envFetchAlt "\x7b\x7d")
      "r-9" rfl rfl).2 ⟨.str "", .str "r-9", .null, .null, .null⟩ rfl).1⟩

/-- C8.  Argument validation precedes every network call and every
authentication attempt: with a missing account name, a missing domain
name in domain-linked mode, or a missing system name in local mode, the
name resolution raises `ValueError` whatever the transport and session
state; likewise listing accounts with a name filter but no system id
raises `ValueError` whatever the environment. -/
theorem claim_C8_validation_before_network (env : Env) (account_name : String)
    (system_name domain_name : Option String) (is_domain_linked : Bool)
    (sid acct : Option String)
    (hname : account_name = "" ∨
      (is_domain_linked = true ∧ optFalsy domain_name = true) ∨
      (is_domain_linked = false ∧ optFalsy system_name = true))
    (hlist : optFalsy acct = false ∧ optFalsy sid = true) :
    (∃ m, get_managed_account_by_name env account_name system_name domain_name
      is_domain_linked = .error (.valueError m)) ∧
    get_managed_accounts env sid acct =
      .error (.valueError "system_id is required when account_name is specified") := by
  constructor
  · unfold get_managed_account_by_name
    by_cases hA : account_name = ""
    · exact ⟨"Account name cannot be null or empty", by simp [hA]⟩
    · rcases hname with h | ⟨h1, h2⟩ | ⟨h1, h2⟩
      · exact absurd h hA
      · exact ⟨"Domain name is required when is_domain_linked is True",
          by simp [hA, h1, h2]⟩
      · exact ⟨"System name is required when is_domain_linked is False",
          by simp [hA, h1, h2]⟩
  · unfold get_managed_accounts
    simp [hlist.1, hlist.2]

/-- Witness for C8: both validation failures fire in an environment
whose session check and every endpoint fail. -/
theorem claim_C8_validation_before_network_witness :
    (∃ m, get_managed_account_by_name envAuthFail "" (some "sys") none false =
      .error (.valueError m)) ∧
    get_managed_accounts envAuthFail none (some "acct") =
      .error (.valueError "system_id is required when account_name is specified") :=
  claim_C8_validation_before_network envAuthFail "" (some "sys") none false
    none (some "acct") (Or.inl rfl) ⟨rfl, rfl⟩

/-- C10.  A fetch body that parses as a JSON object without a
`Password` member (such as `\x7b\x7d`) does not fail either checkout
operation: the returned credential's password is the empty string. -/
theorem claim_C10_empty_object_empty_password (env : Env) (rid mid : String)
    (a : ManagedAccount) (req : PasswordRequest) (rr : PasswordRequestResult)
    (hrid : rid ≠ "") (hauth : env.ensureAuth = .ok ())
    (hfetch : env.credentialsResp rid = .ok "\x7b\x7d")
    (hmid : mid ≠ "")
    (hacct : get_managed_account_by_id env mid = .ok a)
    (hinit : PasswordRequest.init
      { system_id := some a.managed_system_id
        account_id := some a.managed_account_id
        duration_minutes := some env.default_password_duration
        reason := some (.str "API Password Request") } = .ok req)
    (hcreate : create_password_request env req = .ok rr)
    (hfetch2 : env.credentialsResp (pyStr rr.request_id) = .ok "\x7b\x7d") :
    get_managed_account_password_by_request_id env rid =
      .ok ⟨.str "", .str rid, .null, .null, .null⟩ ∧
    get_managed_account_password_by_id env mid =
      .ok ⟨.str "", rr.request_id, a.managed_account_id, a.managed_system_id,
           rr.expiration_date⟩ := by
  have hjson : json_loads "\x7b\x7d" = some (.obj []) := rfl
  constructor
  · unfold get_managed_account_password_by_request_id
    rw [if_neg hrid]
    simp only [hauth, hfetch, hjson]
    rfl
  · have htry : checkoutTryBlock env a =
        .ok ⟨.str "", rr.request_id, a.managed_account_id, a.managed_system_id,
             rr.expiration_date⟩ := by
      unfold checkoutTryBlock
      simp only [hinit, hcreate, hfetch2, hjson]
      rfl
    unfold get_managed_account_password_by_id
    rw [if_neg hmid]
    simp only [hauth, hacct, htry]

/-- Witness for C10: both checkout operations on a transport serving
`\x7b\x7d` as the credential body return an empty-string password. -/
theorem claim_C10_empty_object_empty_password_witness :
    get_managed_account_password_by_request_id envEmptyCred "r-9" =
      .ok ⟨.str "", .str "r-9", .null, .null, .null⟩ ∧
    get_managed_account_password_by_id envEmptyCred "7" =
      .ok ⟨.str "", .str "r-2", .num 7, .num 3, .null⟩ :=
  claim_C10_empty_object_empty_password envEmptyCred "r-9" "7"
    ⟨.num 7, .num 0, .num 3, .num 0⟩
    ⟨.num 3, .num 7, .num 60, .str "API Password Request", .str "reuse",
     .null, .null, .str "view"⟩
    ⟨.str "r-2", .num 0, .num 0, .num 60, .null, .null, .str "", .str "",
     .str "", .num 0, .null, .null, .str "view"⟩
    (by decide) rfl rfl (by decide) rfl rfl rfl rfl

/-- C4 counterexample: the listing operation `get_managed_accounts`
returns the record exactly as `from_dict` parses it — a record whose
canonical account id is present as zero while the secondary id is 5
keeps the zero canonical id, so "callers always see a non-zero
canonical id" fails for the list operation. -/
theorem claim_C4_counterexample :
    get_managed_accounts envListZero (some "3") none =
      .ok [⟨.num 0, .num 5, .num 0, .num 0⟩] ∧
    (⟨.num 0, .num 5, .num 0, .num 0⟩ : ManagedAccount).managed_account_id ≠
      (⟨.num 0, .num 5, .num 0, .num 0⟩ : ManagedAccount).account_id ∧
    pyEqZero (⟨.num 0, .num 5, .num 0, .num 0⟩ : ManagedAccount).managed_account_id = true ∧
    pyGtZero (⟨.num 0, .num 5, .num 0, .num 0⟩ : ManagedAccount).account_id = .ok true := by
  refine ⟨rfl, ?_, rfl, rfl⟩
  intro hco
  exact absurd (PyJson.num.inj hco) (by norm_num)

/-- C4 (amended): the zero-canonical/non-zero-secondary reconciliation
is applied by the two single-record operations — every account returned
by `get_managed_account_by_id` or `get_managed_account_by_name`
satisfies the invariant — while `from_dict` alone (and hence the list
operation, see the counterexample) copies the secondary only when the
canonical **key** is absent. -/
theorem claim_C4_single_record_reconciliation (env : Env) :
    (∀ mid a, get_managed_account_by_id env mid = .ok a →
      (pyGtZero a.account_id = .ok true → pyEqZero a.managed_account_id = false) ∧
      (pyGtZero a.system_id = .ok true → pyEqZero a.managed_system_id = false)) ∧
    (∀ an sn dn dl a, get_managed_account_by_name env an sn dn dl = .ok a →
      (pyGtZero a.account_id = .ok true → pyEqZero a.managed_account_id = false) ∧
      (pyGtZero a.system_id = .ok true → pyEqZero a.managed_system_id = false)) :=
  ⟨fun mid a h => managed_account_invariant_of_by_id env mid a h,
   fun an sn dn dl a h => managed_account_invariant_of_by_name env an sn dn dl a h⟩

/-- Witness for the amended C4: on a record arriving with canonical ids
zero and secondary ids 5 and 9, the by-id operation returns the
reconciled record. -/
theorem claim_C4_single_record_reconciliation_witness :
    pyEqZero (ManagedAccount.mk (.num 5) (.num 5) (.num 9) (.num 9)).managed_account_id
      = false ∧
    get_managed_account_by_id envByIdZero "5" = .ok ⟨.num 5, .num 5, .num 9, .num 9⟩ :=
  ⟨((claim_C4_single_record_reconciliation envByIdZero).1 "5"
      ⟨.num 5, .num 5, .num 9, .num 9⟩ rfl).1 rfl, rfl⟩

/-- C6 counterexample: when the app sign-in call fails after a
successful token exchange, the raised failure is authentication-kind
(that half of the claim holds), but the stored session is **not**
unchanged — it already holds the new `AuthenticationResult`, assigned
before the sign-in call. -/
theorem claim_C6_counterexample :
    (_authenticate_with_oauth envOAuthSignInFail none).2 =
      .error (.btAuth "SignAppIn failed: boom") ∧
    (_authenticate_with_oauth envOAuthSignInFail none).1 =
      some ⟨.str "tok", .str "Bearer", 600, .null, 0⟩ ∧
    (_authenticate_with_oauth envOAuthSignInFail none).1 ≠ none :=
  ⟨rfl, rfl, fun hco => Option.noConfusion hco⟩

/-- C6 (amended): a failed sign-in surfaces as an authentication-kind
failure, but only after `self._auth_result` has been replaced by the
freshly built `AuthenticationResult` — the failed attempt leaves the
new (never signed-in) session stored. -/
theorem claim_C6_signin_failure_state (env : OAuthEnv)
    (st : Option AuthenticationResult) (j : PyJson) (r : AuthenticationResult)
    (m : String)
    (htok : env.tokenCall = .ok j)
    (hbuild : oauthBuildResult env.now j = .ok r)
    (hsignin : env.signIn = .error m) :
    _authenticate_with_oauth env st =
      (some r, .error (.btAuth ("SignAppIn failed: " ++ m))) := by
  unfold _authenticate_with_oauth
  simp only [htok, hbuild, hsignin]

/-- Witness for the amended C6: the previously stored session is
replaced wholesale even though the sign-in failed. -/
theorem claim_C6_signin_failure_state_witness :
    _authenticate_with_oauth envOAuthSignInFail
        (some ⟨.str "old", .str "Bearer", 60, .null, -100⟩) =
      (some ⟨.str "tok", .str "Bearer", 600, .null, 0⟩,
       .error (.btAuth "SignAppIn failed: boom")) :=
  claim_C6_signin_failure_state envOAuthSignInFail
    (some ⟨.str "old", .str "Bearer", 60, .null, -100⟩)
    (.obj [("access_token", .str "tok"), ("token_type", .str "Bearer"),
      ("expires_in", .num 600)])
    ⟨.str "tok", .str "Bearer", 600, .null, 0⟩ "boom" rfl rfl rfl

/-- C1.  When the request phase of a checkout fails with an API failure
whose message contains the 409 signal, the coordinator queries the
active requests for the account: if one exists, it fetches the
credential under that entry's request id and returns a credential
carrying that entry's request id and expiration date; if none exists,
the original conflict failure is re-raised unmodified. -/
theorem claim_C1_conflict_recovery (env : Env) (mid : String) (a : ManagedAccount)
    (req : PasswordRequest) (msg : String)
    (hmid : mid ≠ "")
    (hacct : get_managed_account_by_id env mid = .ok a)
    (hinit : PasswordRequest.init
      { system_id := some a.managed_system_id
        account_id := some a.managed_account_id
        duration_minutes := some env.default_password_duration
        reason := some (.str "API Password Request") } = .ok req)
    (hcreate : create_password_request env req = .error (.btApi msg))
    (h409 : strContainsSub msg "409" = true) :
    (∀ exr body fields,
      _get_existing_request env (pyStr a.managed_account_id) = .ok (some exr) →
      env.credentialsResp (pyStr exr.request_id) = .ok body →
      json_loads body = some (.obj fields) →
      get_managed_account_password_by_id env mid =
        .ok ⟨(dictGet fields "Password").getD (.str ""), exr.request_id,
             a.managed_account_id, a.managed_system_id, exr.expiration_date⟩) ∧
    (_get_existing_request env (pyStr a.managed_account_id) = .ok none →
      get_managed_account_password_by_id env mid = .error (.btApi msg)) := by
  have hauth := ensureAuth_ok_of_account_ok env mid a hacct
  have htry : checkoutTryBlock env a = .error (.btApi msg) := by
    unfold checkoutTryBlock
    simp only [hinit, hcreate]
  have hcr : get_managed_account_password_by_id env mid =
      conflictRecovery env a (.btApi msg) := by
    unfold get_managed_account_password_by_id
    rw [if_neg hmid]
    simp only [hauth, hacct, htry]
  constructor
  · intro exr body fields hex hcred hjson
    rw [hcr]
    unfold conflictRecovery
    simp only [PyExc.isBtApi, PyExc.msg, h409, Bool.and_self, if_true]
    simp only [hex, hcred, hjson]
  · intro hex
    rw [hcr]
    unfold conflictRecovery
    simp only [PyExc.isBtApi, PyExc.msg, h409, Bool.and_self, if_true]
    simp only [hex]

/-- Witness for C1: in the conflict scenario the coordinator joins the
existing request `r-1` (returning its password and expiry), and with no
active request it re-raises the original 409 failure. -/
theorem claim_C1_conflict_recovery_witness :
    get_managed_account_password_by_id envConflictJoin "7" =
      .ok ⟨.str "pw1", .str "r-1", .num 7, .num 3, .str "2025-01-01"⟩ ∧
    get_managed_account_password_by_id envConflictNone "7" =
      .error (.btApi "Failed to create password request: 409 Client Error: Conflict for url") := by
  constructor
  · exact (claim_C1_conflict_recovery envConflictJoin "7" ⟨.num 7, .num 0, .num 3, .num 0⟩
      ⟨.num 3, .num 7, .num 60, .str "API Password Request", .str "reuse",
       .null, .null, .str "view"⟩
      "Failed to create password request: 409 Client Error: Conflict for url"
      (by decide) rfl rfl rfl rfl).1
      ⟨.str "r-1", .num 0, .num 0, .num 60, .null, .str "2025-01-01", .str "",
       .str "", .str "", .num 0, .null, .null, .str "view"⟩
      "\x7b\"Password\":\"pw1\"\x7d" [("Password", .str "pw1")] rfl rfl rfl
  · exact (claim_C1_conflict_recovery envConflictNone "7" ⟨.num 7, .num 0, .num 3, .num 0⟩
      ⟨.num 3, .num 7, .num 60, .str "API Password Request", .str "reuse",
       .null, .null, .str "view"⟩
      "Failed to create password request: 409 Client Error: Conflict for url"
      (by decide) rfl rfl rfl rfl).2 rfl
